import Mathlib

/-!
Verification development for the Mini FP&A assistant's finance data layer
(`agent/tools.py`) and intent classifier (`agent/planner.py`).

Conventions of the embedding:
* A month-granularity timestamp (pandas `Timestamp` normalized to the first of
  its month via `.to_period("M").to_timestamp()`) is represented by its linear
  month index `year * 12 + (month - 1) : Int`.
* Monetary amounts and FX rates are rationals (`ℚ`); the Python code uses
  floats, and every claim under study is about the exact arithmetic the code
  performs, so `ℚ` is the idealized carrier.
* `float("inf")` sentinels and pandas `NaN`/`None` cells are represented by
  `Option` (`none` = missing / infinite, as documented at each use site).
-/

/-- Month-granularity timestamp: linear month index `year * 12 + (month - 1)`. -/
abbrev Month := Int

/-- One row of the `actuals` / `budget` tables after the loader's renames
(`month` → `date`, `account_category` → `category`) and numeric coercion. -/
structure Row where
  date : Month
  entity : String
  category : String
  currency : String
  amount : ℚ
deriving Repr, DecidableEq

/-- One row of the `cash` table after renames (`month` → `date`,
`cash_usd` → `cash_balance`). -/
structure CashRow where
  date : Month
  entity : String
  currency : String
  cash_balance : ℚ
deriving Repr, DecidableEq

/-- One row of the `fx` table after renames (`month` → `date`,
`rate_to_usd` → `usd_rate`). -/
structure FxRow where
  date : Month
  currency : String
  usd_rate : ℚ
deriving Repr, DecidableEq

/-- The four record sets held by `FinanceData.__init__` after loading. -/
structure FinanceData where
  actuals : List Row
  budget : List Row
  cash : List CashRow
  fx : List FxRow
deriving Repr, DecidableEq

/-! ### FX table construction (tools.py lines 58-60)

`self.fx_map = self.fx.pivot(index="date", columns="currency",
values="usd_rate").sort_index().ffill().bfill()` -/

/-- Pandas `Series.ffill` helper: carry the last seen value forward. -/
def ffillAux : Option ℚ → List (Option ℚ) → List (Option ℚ)
  | _, [] => []
  | last, none :: rest => last :: ffillAux last rest
  | _, some v :: rest => some v :: ffillAux (some v) rest

/-- Pandas `Series.ffill` (forward fill). -/
def ffill (l : List (Option ℚ)) : List (Option ℚ) := ffillAux none l

/-- Pandas `Series.bfill` (backward fill) = forward fill of the reversal. -/
def bfill (l : List (Option ℚ)) : List (Option ℚ) := (ffill l.reverse).reverse

/-- The sorted, distinct dates forming the pivot's index (`sort_index()`). -/
def sortedFxDates (fx : List FxRow) : List Month :=
  List.insertionSort (· ≤ ·) ((fx.map (·.date)).dedup)

/-- The distinct currencies forming the pivot's columns. -/
def fxCurrencies (fx : List FxRow) : List String :=
  (fx.map (·.currency)).dedup

/-- The raw pivot cell at (date, currency): the rate of the row with that key.
(`DataFrame.pivot` requires the key to be unique; duplicates abort the load,
see `FinanceData.load`.) -/
def fxRawCell (fx : List FxRow) (d : Month) (c : String) : Option ℚ :=
  (fx.find? (fun r => r.date == d && r.currency == c)).map (·.usd_rate)

/-- One pivot column (fixed currency), along the sorted date index. -/
def fxColumn (fx : List FxRow) (c : String) : List (Option ℚ) :=
  (sortedFxDates fx).map (fun d => fxRawCell fx d c)

/-- A pivot column after `.ffill().bfill()`. -/
def fxFilledColumn (fx : List FxRow) (c : String) : List (Option ℚ) :=
  bfill (ffill (fxColumn fx c))

/-- Lookup `self.fx_map.loc[date, currency]`: `none` when the label pair is absent
(pandas raises `KeyError` there; the caller catches it). -/
def FinanceData.fx_map (fd : FinanceData) (d : Month) (c : String) : Option ℚ :=
  if c ∈ fxCurrencies fd.fx then
    match (sortedFxDates fd.fx).findIdx? (fun x => x == d) with
    | some i => ((fxFilledColumn fd.fx c).get? i).join
    | none => none
  else none

/-! ### USD conversion (tools.py lines 62-77, `FinanceData._to_usd`) -/

/-- Inner `lookup_rate` from `_to_usd`: the FX-map lookup wrapped in
`try/except`; every failure path returns 1.0 (the `"USD"` branch and the
general fallback both return 1.0, uniformly). -/
def FinanceData.lookup_rate (fd : FinanceData) (d : Month) (c : String) : ℚ :=
  (fd.fx_map d c).getD 1

/-- An actuals/budget row augmented by `_to_usd` with `usd_rate` and
`amount_usd` columns. -/
structure UsdRow where
  row : Row
  usd_rate : ℚ
  amount_usd : ℚ
deriving Repr, DecidableEq

/-- A cash row augmented by `_to_usd(..., amount_col="cash_balance")`. -/
structure UsdCashRow where
  row : CashRow
  usd_rate : ℚ
  amount_usd : ℚ
deriving Repr, DecidableEq

/-- Method `FinanceData._to_usd` on actuals/budget rows: `amount_usd = amount *
usd_rate`, with the rate from `lookup_rate`.  (The method's re-normalization
of `date` to first-of-month is the identity here, dates being month indices
already.) -/
def FinanceData.toUsd (fd : FinanceData) (rows : List Row) : List UsdRow :=
  rows.map (fun r =>
    { row := r
      usd_rate := fd.lookup_rate r.date r.currency
      amount_usd := r.amount * fd.lookup_rate r.date r.currency })

/-- Method `FinanceData._to_usd` applied to the cash table
(`amount_col="cash_balance"`). -/
def FinanceData.toUsdCash (fd : FinanceData) (rows : List CashRow) : List UsdCashRow :=
  rows.map (fun r =>
    { row := r
      usd_rate := fd.lookup_rate r.date r.currency
      amount_usd := r.cash_balance * fd.lookup_rate r.date r.currency })

/-! ### String helpers

Python's `str.lower` / `str.strip` and the string splitting the parsers need,
written by structural recursion on the character list (the equivalents in
Lean's `String` library are position-based loops, which the kernel cannot
evaluate inside `decide`/`rfl` proofs). -/

/-- Python `str.lower` (ASCII letters). -/
def strLower (s : String) : String := String.mk (s.data.map Char.toLower)

/-- Python `str.strip`: drop whitespace from both ends. -/
def trimChars (cs : List Char) : List Char :=
  ((cs.dropWhile Char.isWhitespace).reverse.dropWhile Char.isWhitespace).reverse

/-- Python `str.strip` on strings. -/
def strTrim (s : String) : String := String.mk (trimChars s.data)

/-- Split a character list on a separator character (like `str.split(sep)` /
`String.splitOn` for a one-character separator). -/
def splitOnChar (sep : Char) : List Char → List (List Char)
  | [] => [[]]
  | c :: rest =>
    let r := splitOnChar sep rest
    if c == sep then [] :: r
    else
      match r with
      | [] => [[c]]
      | h :: t => (c :: h) :: t

/-! ### Month-string resolution (tools.py lines 10-18, `_month_str_to_ts`) -/

/-- English month names with their numbers, for name-based parsing. -/
def monthNames : List (String × Nat) :=
  [("january", 1), ("february", 2), ("march", 3), ("april", 4),
   ("may", 5), ("june", 6), ("july", 7), ("august", 8),
   ("september", 9), ("october", 10), ("november", 11), ("december", 12)]

/-- A lowercased token names a month when it is the full English name or its
3-letter abbreviation. -/
def parseMonthName (t : List Char) : Option Nat :=
  (monthNames.find? (fun p => p.1.data == t || p.1.data.take 3 == t)).map (·.2)

/-- Numeric value of a digit string. -/
def digitsToNat (cs : List Char) : Nat :=
  cs.foldl (fun n c => 10 * n + (c.toNat - 48)) 0

/-- A character list consisting of exactly `n` decimal digits. -/
def isDigits (cs : List Char) (n : Nat) : Bool :=
  cs.length == n && cs.all Char.isDigit

/-- Modelled from the spec: the external `dateutil.parser.parse` collaborator,
restricted to the month-string shapes the spec requires the interface to
accept permissively — "June 2025", "Jun 2025", "2025-06", "2025-06-01"
(month-name plus 4-digit year, and 4-digit-year ISO dates with optional day).
Returns `(year, month)`; `none` models the parser raising on invalid input. -/
def parseMonthString (s : String) : Option (Nat × Nat) :=
  let t := trimChars s.data
  match splitOnChar '-' t with
  | [y, m] =>
    if isDigits y 4 && isDigits m 2 && 1 ≤ digitsToNat m && digitsToNat m ≤ 12 then
      some (digitsToNat y, digitsToNat m)
    else none
  | [y, m, d] =>
    if isDigits y 4 && isDigits m 2 && isDigits d 2 && 1 ≤ digitsToNat m
        && digitsToNat m ≤ 12 && 1 ≤ digitsToNat d && digitsToNat d ≤ 31 then
      some (digitsToNat y, digitsToNat m)
    else none
  | _ =>
    match splitOnChar ' ' t with
    | [name, y] =>
      if isDigits y 4 then
        (parseMonthName (name.map Char.toLower)).map (fun m => (digitsToNat y, m))
      else none
    | _ => none

/-- Month index of a (year, month) pair. -/
def monthIndex (y m : Nat) : Month := (y : Int) * 12 + ((m : Int) - 1)

/-- Function `_month_str_to_ts`: parse the month string and truncate to the first of
its month (`Timestamp(year=dt.year, month=dt.month, day=1)`), i.e. keep only
the month index.  `none` models the parse raising. -/
def month_str_to_ts (s : String) : Option Month :=
  (parseMonthString s).map (fun p => monthIndex p.1 p.2)

/-! ### Shared filters -/

/-- The `if entity:` guard used by every method: the filter applies only when
`entity` is truthy in Python, i.e. present and non-empty. -/
def entityFilter (entity : Option String) (rows : List Row) : List Row :=
  match entity with
  | none => rows
  | some e => if e == "" then rows else rows.filter (fun r => r.entity == e)

/-- The same truthiness guard on the cash table (tools.py line 156). -/
def cashEntityFilter (entity : Option String) (rows : List CashRow) : List CashRow :=
  match entity with
  | none => rows
  | some e => if e == "" then rows else rows.filter (fun r => r.entity == e)

/-- Filter `date == ts and category.str.lower() == "revenue"`. -/
def revFilter (rows : List Row) (ts : Month) : List Row :=
  rows.filter (fun r => r.date == ts && strLower r.category == "revenue")

/-- Filter `date == ts and category.str.lower() == "cogs"`. -/
def cogsFilter (rows : List Row) (ts : Month) : List Row :=
  rows.filter (fun r => r.date == ts && strLower r.category == "cogs")

/-- Substring containment, as in Python's `str.contains` with the regex
alternation `"opex|operating"` (each alternative is a plain substring). -/
def containsSub (s pat : String) : Bool :=
  (List.range (s.length + 1)).any (fun i => pat.data.isPrefixOf (s.data.drop i))

/-- Filter `date == ts and category.str.lower().str.contains("opex|operating")`. -/
def opexFilter (rows : List Row) (ts : Month) : List Row :=
  rows.filter (fun r => r.date == ts &&
    (containsSub (strLower r.category) "opex" || containsSub (strLower r.category) "operating"))

/-! ### revenue_vs_budget (tools.py lines 81-91) -/

/-- Result record of `revenue_vs_budget`. -/
structure RevVsBudget where
  month : Month
  actual_usd : ℚ
  budget_usd : ℚ
deriving Repr, DecidableEq

/-- Method `revenue_vs_budget` on an already-resolved month timestamp. -/
def FinanceData.revenue_vs_budgetTs (fd : FinanceData) (ts : Month)
    (entity : Option String) : RevVsBudget :=
  let a := entityFilter entity (revFilter fd.actuals ts)
  let b := entityFilter entity (revFilter fd.budget ts)
  { month := ts
    actual_usd := ((fd.toUsd a).map (·.amount_usd)).sum
    budget_usd := ((fd.toUsd b).map (·.amount_usd)).sum }

/-- Method `revenue_vs_budget(month, entity)`; `none` models the month string failing
to parse (an exception in Python). -/
def FinanceData.revenue_vs_budget (fd : FinanceData) (month : String)
    (entity : Option String) : Option RevVsBudget :=
  (month_str_to_ts month).map (fun ts => fd.revenue_vs_budgetTs ts entity)

/-! ### gross_margin_trend (tools.py lines 93-111) -/

/-- Pandas `pd.period_range(end=end_ts, periods=n, freq="M")`: the `n` consecutive
months ending at and including `endTs`, oldest first. -/
def monthsRange (endTs : Month) (n : Nat) : List Month :=
  (List.range n).map (fun i => endTs - ((n - 1 - i : Nat) : Int))

/-- One output row of `gross_margin_trend`; `gross_margin_pct = none` models
the Python `None` produced when revenue is 0. -/
structure GMRow where
  date : Month
  revenue_usd : ℚ
  cogs_usd : ℚ
  gross_margin_pct : Option ℚ
deriving Repr, DecidableEq

/-- Method `gross_margin_trend` on an already-resolved end month. -/
def FinanceData.gross_margin_trendTs (fd : FinanceData) (months : Nat)
    (endTs : Month) : List GMRow :=
  (monthsRange endTs months).map (fun ts =>
    let rev_usd := ((fd.toUsd (revFilter fd.actuals ts)).map (·.amount_usd)).sum
    let cogs_usd := ((fd.toUsd (cogsFilter fd.actuals ts)).map (·.amount_usd)).sum
    { date := ts
      revenue_usd := rev_usd
      cogs_usd := cogs_usd
      gross_margin_pct := if rev_usd = 0 then none else some ((rev_usd - cogs_usd) / rev_usd) })

/-- Method `gross_margin_trend(months, end_month)`: the end month defaults to
`self.actuals["date"].max()`; `none` models an unparseable end string or an
empty actuals table. -/
def FinanceData.gross_margin_trend (fd : FinanceData) (months : Nat)
    (end_month : Option String) : Option (List GMRow) :=
  let endTs : Option Month :=
    match end_month with
    | some m => month_str_to_ts m
    | none => (fd.actuals.map (·.date)).max?
  endTs.map (fd.gross_margin_trendTs months)

/-! ### opex_breakdown (tools.py lines 113-128) -/

/-- One output row of `opex_breakdown` (`category` renamed to `account`). -/
structure OpexRow where
  account : String
  amount_usd : ℚ
deriving Repr, DecidableEq

/-- Method `opex_breakdown` on an already-resolved month: filter, convert, group by
category summing `amount_usd` (pandas `groupby` sorts the keys), then
`sort_values("amount_usd", ascending=False)`. -/
def FinanceData.opex_breakdownTs (fd : FinanceData) (ts : Month)
    (entity : Option String) : List OpexRow :=
  let opex := entityFilter entity (opexFilter fd.actuals ts)
  let o_usd := fd.toUsd opex
  let cats := List.insertionSort (· ≤ ·) ((o_usd.map (·.row.category)).dedup)
  let grouped := cats.map (fun c =>
    OpexRow.mk c (((o_usd.filter (fun u => u.row.category == c)).map (·.amount_usd)).sum))
  List.insertionSort (fun a b => b.amount_usd ≤ a.amount_usd) grouped

/-- Method `opex_breakdown(month, entity)`. -/
def FinanceData.opex_breakdown (fd : FinanceData) (month : String)
    (entity : Option String) : Option (List OpexRow) :=
  (month_str_to_ts month).map (fun ts => fd.opex_breakdownTs ts entity)

/-! ### ebitda_proxy (tools.py lines 130-149) -/

/-- Result record of `ebitda_proxy`. -/
structure Ebitda where
  month : Month
  ebitda_usd : ℚ
  revenue_usd : ℚ
  cogs_usd : ℚ
  opex_usd : ℚ
deriving Repr, DecidableEq

/-- Method `ebitda_proxy` on an already-resolved month. -/
def FinanceData.ebitda_proxyTs (fd : FinanceData) (ts : Month)
    (entity : Option String) : Ebitda :=
  let rev := entityFilter entity (revFilter fd.actuals ts)
  let cogs := entityFilter entity (cogsFilter fd.actuals ts)
  let opex := entityFilter entity (opexFilter fd.actuals ts)
  let rev_usd := ((fd.toUsd rev).map (·.amount_usd)).sum
  let cogs_usd := ((fd.toUsd cogs).map (·.amount_usd)).sum
  let opex_usd := ((fd.toUsd opex).map (·.amount_usd)).sum
  { month := ts
    ebitda_usd := rev_usd - cogs_usd - opex_usd
    revenue_usd := rev_usd
    cogs_usd := cogs_usd
    opex_usd := opex_usd }

/-- Method `ebitda_proxy(month, entity)`. -/
def FinanceData.ebitda_proxy (fd : FinanceData) (month : String)
    (entity : Option String) : Option Ebitda :=
  (month_str_to_ts month).map (fun ts => fd.ebitda_proxyTs ts entity)

/-! ### cash_runway_months (tools.py lines 151-178) -/

/-- Result record of `cash_runway_months`.  `current_cash_usd = none` models
a `NaN` balance (every window month missing); `runway_months = none` models
`float("inf")`. -/
structure RunwayResult where
  as_of : Month
  current_cash_usd : Option ℚ
  avg_monthly_burn_usd : ℚ
  runway_months : Option ℚ
deriving Repr, DecidableEq

/-- The reindexed 3-month window of USD cash balances
(`c_usd.set_index("date").reindex(months)` followed by
`cash_balance_usd = cash_balance * usd_rate`, tools.py lines 160-161).
Pandas `reindex` demands a unique index: on a duplicate date label (for
example two entities sharing a month, queried with no entity filter) it
raises `ValueError: cannot reindex on an axis with duplicate labels` — the
outer `none` models that raise.  Otherwise `find?` picks the unique row of
each window month, and a month with no row yields an inner `none` (a `NaN`
slot). -/
def FinanceData.cashBalances (fd : FinanceData) (ts : Month)
    (entity : Option String) : Option (List (Option ℚ)) :=
  let months := monthsRange ts 3
  let c_usd := fd.toUsdCash (cashEntityFilter entity fd.cash)
  if (c_usd.map (·.row.date)).Nodup then
    some (months.map (fun m =>
      (c_usd.find? (fun u => u.row.date == m)).map (fun u => u.row.cash_balance * u.usd_rate)))
  else none

/-- The window after `ffill().bfill()` (tools.py line 162); `none` propagates
the reindex failure. -/
def FinanceData.cashFilled (fd : FinanceData) (ts : Month)
    (entity : Option String) : Option (List (Option ℚ)) :=
  (fd.cashBalances ts entity).map (fun l => bfill (ffill l))

/-- Column `net_burn = prev - cash_balance_usd` via `shift(1)`, then `dropna`: one
figure per adjacent pair both of whose balances are present. -/
def netBurns (l : List (Option ℚ)) : List ℚ :=
  (l.zip (l.drop 1)).filterMap (fun p =>
    match p.1, p.2 with
    | some prev, some cur => some (prev - cur)
    | _, _ => none)

/-- Pandas `Series.mean()`: `none` models the `NaN` mean of an empty series. -/
def meanOpt (l : List ℚ) : Option ℚ :=
  if l.isEmpty then none else some (l.sum / (l.length : ℚ))

/-- Line `avg_burn = cs["net_burn"].dropna().mean()` (tools.py line 168);
the outer `none` propagates the reindex failure, the inner `none` is the
`NaN` mean of an empty series. -/
def FinanceData.avg_burn (fd : FinanceData) (ts : Month)
    (entity : Option String) : Option (Option ℚ) :=
  (fd.cashFilled ts entity).map (fun filled => meanOpt (netBurns filled))

/-- Method `cash_runway_months` on an already-resolved as-of month; `none`
models the `ValueError` raised at the reindex step on a duplicate date
index, so the method returns no record there. -/
def FinanceData.cash_runway_monthsTs (fd : FinanceData) (ts : Month)
    (entity : Option String) : Option RunwayResult :=
  (fd.cashFilled ts entity).map (fun filled =>
    let avg := meanOpt (netBurns filled)
    let current := filled.getLast?.join
    { as_of := ts
      current_cash_usd := current
      avg_monthly_burn_usd := avg.getD 0
      runway_months :=
        match avg with
        | none => none
        | some a => if a ≤ 0 then none else some (current.getD 0 / a) })

/-- Method `cash_runway_months(as_of_month, entity)`: the as-of month defaults
to `self.cash["date"].max()`; `none` covers the two Python raise paths (an
unresolvable month string or the duplicate-index reindex failure). -/
def FinanceData.cash_runway_months (fd : FinanceData) (as_of_month : Option String)
    (entity : Option String) : Option RunwayResult :=
  let ts : Option Month :=
    match as_of_month with
    | some m => month_str_to_ts m
    | none => (fd.cash.map (·.date)).max?
  ts.bind (fun t => fd.cash_runway_monthsTs t entity)

/-! ### Intent classifier (agent/planner.py, `classify`) -/

/-- The parameter dictionary returned with each intent; one constructor per
dict shape the Python function builds. -/
inductive Params
  | revBudget (month : Option String)
  | gmTrend (months : Nat) (end_month : Option String)
  | opex (month : Option String)
  | runway (as_of : Option String)
  | ebitda (month : Option String)
  | empty
deriving Repr, DecidableEq

/-- One attempt of the first regex alternative `[a-zA-Z]{3,9} \d{4}` at the
current position with exactly `k` letters. -/
def tryNameYear (cs : List Char) (k : Nat) : Option (List Char) :=
  let pre := cs.take k
  if pre.length == k && pre.all Char.isAlpha then
    match cs.drop k with
    | ' ' :: rest =>
      if (rest.take 4).length == 4 && (rest.take 4).all Char.isDigit then
        some (pre ++ ' ' :: rest.take 4)
      else none
    | _ => none
  else none

/-- The first regex alternative at the current position; the greedy `{3,9}`
quantifier tries the longest letter count first. -/
def matchAlt1 (cs : List Char) : Option (List Char) :=
  [9, 8, 7, 6, 5, 4, 3].findSome? (tryNameYear cs)

/-- The second regex alternative `\d{4}-\d{2}(?:-\d{2})?` at the current
position; the optional day group is greedy. -/
def matchAlt2 (cs : List Char) : Option (List Char) :=
  match cs with
  | y1 :: y2 :: y3 :: y4 :: '-' :: m1 :: m2 :: rest =>
    if [y1, y2, y3, y4, m1, m2].all Char.isDigit then
      match rest with
      | '-' :: d1 :: d2 :: _ =>
        if d1.isDigit && d2.isDigit then
          some [y1, y2, y3, y4, '-', m1, m2, '-', d1, d2]
        else some [y1, y2, y3, y4, '-', m1, m2]
      | _ => some [y1, y2, y3, y4, '-', m1, m2]
    else none
  | _ => none

/-- Python `re.search` scan for the month pattern: leftmost match, first alternative
preferred at each position. -/
def searchMonthAux : List Char → Option (List Char)
  | [] => none
  | c :: rest =>
    match matchAlt1 (c :: rest) with
    | some m => some m
    | none =>
      match matchAlt2 (c :: rest) with
      | some m => some m
      | none => searchMonthAux rest

/-- Python `re.search(r'([a-zA-Z]{3,9} \d{4}|\d{4}-\d{2}(?:-\d{2})?)', q)`. -/
def searchMonth (q : String) : Option String :=
  (searchMonthAux q.data).map (fun cs => String.mk cs)

/-- The pattern `last (\d+) months` at the current position (`\d+` greedy;
backtracking cannot help because a shorter digit run is followed by a digit,
not by the literal space). -/
def matchLastN (cs : List Char) : Option Nat :=
  if "last ".data.isPrefixOf cs then
    let rest := cs.drop 5
    let ds := rest.takeWhile Char.isDigit
    if !ds.isEmpty && " months".data.isPrefixOf (rest.drop ds.length) then
      some (digitsToNat ds)
    else none
  else none

/-- Python `re.search(r"last (\d+) months", q)` scan. -/
def searchLastNAux : List Char → Option Nat
  | [] => none
  | c :: rest =>
    match matchLastN (c :: rest) with
    | some n => some n
    | none => searchLastNAux rest

/-- Function `classify(question)`: lowercase and strip, extract the optional month
string, then run the keyword checks in source order. -/
def classify (question : String) : String × Params :=
  let q := strTrim (strLower question)
  let month : Option String := searchMonth q
  if containsSub q "revenue" && containsSub q "budget" then
    ("revenue_vs_budget", Params.revBudget month)
  else if containsSub q "gross margin" || containsSub q "gross margin %"
      || containsSub q "gross margin percent" then
    let months : Nat :=
      match searchLastNAux q.data with
      | some n => n
      | none => 3
    ("gross_margin_trend", Params.gmTrend months month)
  else if containsSub q "opex" || containsSub q "operating expense" then
    ("opex_breakdown", Params.opex month)
  else if containsSub q "cash runway" || containsSub q "runway" then
    ("cash_runway", Params.runway month)
  else if containsSub q "ebitda" || containsSub q "earnings"
      || containsSub q "operating profit" then
    ("ebitda_proxy", Params.ebitda month)
  else
    ("unknown", Params.empty)

/-! ### Dataset loading (tools.py lines 28-60, `FinanceData.__init__`)

The workbook is a list of named sheets; a sheet is a header row of column
names and a grid of cells.  A cell is a number, a text value, or empty.
`pd.read_excel` / `pd.to_numeric` / `pd.to_datetime` / `DataFrame.pivot`
semantics are modelled as follows:
* a missing sheet name raises at `pd.read_excel` (→ `missingTable`);
* a column named in `parse_dates` but absent raises at `pd.read_excel`
  (→ `missingColumn`); date cells that `parse_dates` cannot parse are left
  unparsed and then make `pd.to_datetime` raise at the first-of-month
  normalization step, line 50 (→ `badDateCell`);
* `pd.to_numeric(..., errors="coerce").fillna(0)` coerces every non-numeric
  cell to 0 and never fails, but raises `KeyError` when the column itself is
  absent (→ `missingColumn`);
* `DataFrame.pivot` raises `KeyError` when `columns`/`values` name a missing
  column (→ `missingColumn`) and `ValueError` when an (index, columns) key is
  duplicated (→ `duplicateFxKey`).
Python surfaces these as assorted exception types; the spec groups them all
under the name `LoadError`.
-/

/-- A workbook cell. -/
inductive Cell
  | num (q : ℚ)
  | str (s : String)
  | empty
deriving Repr, DecidableEq

/-- A sheet: column names plus a grid of cells (one inner list per row,
indexed positionally against `cols`). -/
structure Sheet where
  cols : List String
  cells : List (List Cell)
deriving Repr, DecidableEq

/-- A workbook: named sheets. -/
abbrev Workbook := List (String × Sheet)

/-- The exceptions the load path can surface (spec name: `LoadError`). -/
inductive LoadError
  | missingTable (name : String)
  | missingColumn (table col : String)
  | badDateCell (table : String)
  | duplicateFxKey
deriving Repr, DecidableEq

/-- Pandas `pd.read_excel(xls, name)`: the sheet of that name. -/
def getSheet (wb : Workbook) (name : String) : Option Sheet :=
  (wb.find? (fun p => p.1 == name)).map (·.2)

/-- Position of a named column in a sheet. -/
def colIdx (sh : Sheet) (c : String) : Option Nat :=
  sh.cols.findIdx? (fun x => x == c)

/-- Cell of a row at a column position (out-of-range reads as empty). -/
def getCell (row : List Cell) (i : Nat) : Cell :=
  (row.get? i).getD Cell.empty

/-- String column read: text cells pass through, anything else reads as "".
(The source leaves such columns untouched at load; they are only consumed at
query time, so only their values matter here.) -/
def getStrCell (row : List Cell) (i : Option Nat) : String :=
  match i with
  | some j =>
    match getCell row j with
    | Cell.str s => s
    | _ => ""
  | none => ""

/-- Pandas `pd.to_numeric(col, errors="coerce").fillna(0)` on a single cell: numbers
pass through, everything else (text, empty) coerces to 0 — never an error.
(Pandas would additionally parse numeric text; no claim depends on that.) -/
def toNumericCell : Cell → ℚ
  | Cell.num q => q
  | Cell.str _ => 0
  | Cell.empty => 0

/-- A date cell as consumed by `parse_dates` + `pd.to_datetime` + the
first-of-month truncation: text holding a parseable date yields its month
index; anything else is an unparseable date cell. -/
def parseDateCell : Cell → Option Month
  | Cell.str s => month_str_to_ts s
  | _ => none

/-- Sheet lookup or `missingTable`. -/
def requireSheet (wb : Workbook) (name : String) : Except LoadError Sheet :=
  match getSheet wb name with
  | some sh => Except.ok sh
  | none => Except.error (LoadError.missingTable name)

/-- Column lookup or `missingColumn`. -/
def requireCol (sh : Sheet) (table col : String) : Except LoadError Nat :=
  match colIdx sh col with
  | some i => Except.ok i
  | none => Except.error (LoadError.missingColumn table col)

/-- The `month` column parsed to month indices; any unparseable cell aborts
(`pd.to_datetime` raising at tools.py line 50). -/
def parseDates (table : String) (sh : Sheet) (mIdx : Nat) : Except LoadError (List Month) :=
  sh.cells.mapM (fun row =>
    match parseDateCell (getCell row mIdx) with
    | some d => Except.ok d
    | none => Except.error (LoadError.badDateCell table))

/-- Assemble `actuals`/`budget` rows: dates from the parsed month column,
`amount` coerced numerically, the other columns read as strings. -/
def mkRows (dates : List Month) (sh : Sheet) (aIdx : Nat) : List Row :=
  (dates.zip sh.cells).map (fun p =>
    { date := p.1
      entity := getStrCell p.2 (colIdx sh "entity")
      category := getStrCell p.2 (colIdx sh "account_category")
      currency := getStrCell p.2 (colIdx sh "currency")
      amount := toNumericCell (getCell p.2 aIdx) })

/-- Assemble `cash` rows.  The numeric coercion of `cash_usd` is guarded by
`if "cash_balance" in self.cash.columns` in the source, so a missing
`cash_usd` column is tolerated at load (balances read as 0 here; the source
would only fail later, at query time). -/
def mkCashRows (dates : List Month) (sh : Sheet) : List CashRow :=
  (dates.zip sh.cells).map (fun p =>
    { date := p.1
      entity := getStrCell p.2 (colIdx sh "entity")
      currency := getStrCell p.2 (colIdx sh "currency")
      cash_balance :=
        match colIdx sh "cash_usd" with
        | some i => toNumericCell (getCell p.2 i)
        | none => 0 })

/-- Assemble `fx` rows.  (An FX rate cell is read through the same numeric
coercion; pandas would carry a non-numeric rate along without failing the
load, and no claim depends on such cells.) -/
def mkFxRows (dates : List Month) (sh : Sheet) (cIdx rIdx : Nat) : List FxRow :=
  (dates.zip sh.cells).map (fun p =>
    { date := p.1
      currency := getStrCell p.2 (some cIdx)
      usd_rate := toNumericCell (getCell p.2 rIdx) })

/-- Constructor `FinanceData.__init__`, in source order: the four `pd.read_excel` calls
(sheet presence and the `parse_dates` column), the date-normalization loop
(lines 48-50, where unparsed date cells raise), the numeric coercions
(lines 53-56; `amount` must exist for actuals and budget), and the FX pivot
(lines 59-60; `currency` and the renamed `rate_to_usd` column must exist, and
the (date, currency) key must be duplicate-free). -/
def FinanceData.load (wb : Workbook) : Except LoadError FinanceData := do
  let shA ← requireSheet wb "actuals"
  let mA ← requireCol shA "actuals" "month"
  let shB ← requireSheet wb "budget"
  let mB ← requireCol shB "budget" "month"
  let shC ← requireSheet wb "cash"
  let mC ← requireCol shC "cash" "month"
  let shF ← requireSheet wb "fx"
  let mF ← requireCol shF "fx" "month"
  let dA ← parseDates "actuals" shA mA
  let dB ← parseDates "budget" shB mB
  let dC ← parseDates "cash" shC mC
  let dF ← parseDates "fx" shF mF
  let aA ← requireCol shA "actuals" "amount"
  let aB ← requireCol shB "budget" "amount"
  let cF ← requireCol shF "fx" "currency"
  let rF ← requireCol shF "fx" "rate_to_usd"
  let fxRows := mkFxRows dF shF cF rF
  if (fxRows.map (fun r => (r.date, r.currency))).Nodup then
    Except.ok
      { actuals := mkRows dA shA aA
        budget := mkRows dB shB aB
        cash := mkCashRows dC shC
        fx := fxRows }
  else
    Except.error LoadError.duplicateFxKey

/-! ### Sample dataset used by the witness theorems

Month index 24305 is 2025-06, 24304 is 2025-05, 24303 is 2025-04. -/

def sampleActuals : List Row :=
  [⟨24305, "US", "revenue", "USD", 120000⟩,
   ⟨24305, "US", "cogs", "USD", 48000⟩,
   ⟨24305, "US", "Opex:Marketing", "USD", 30000⟩,
   ⟨24305, "EU", "Opex:IT", "EUR", 10000⟩,
   ⟨24304, "US", "revenue", "USD", 100000⟩]

def sampleBudget : List Row := [⟨24305, "US", "revenue", "USD", 110000⟩]

def sampleCash : List CashRow :=
  [⟨24303, "US", "USD", 500000⟩, ⟨24304, "US", "USD", 450000⟩, ⟨24305, "US", "USD", 420000⟩]

def sampleFx : List FxRow := [⟨24304, "EUR", 11/10⟩, ⟨24305, "EUR", 6/5⟩]

def sampleData : FinanceData := ⟨sampleActuals, sampleBudget, sampleCash, sampleFx⟩

/-- A loadable snapshot whose cash sheet has two entities in the same month:
with no entity filter the date index is duplicated, so
`c_usd.set_index("date").reindex(months)` (tools.py line 160) raises
`ValueError: cannot reindex on an axis with duplicate labels`. -/
def dupCashData : FinanceData :=
  ⟨[], [], [⟨24305, "US", "USD", 100000⟩, ⟨24305, "EU", "USD", 200000⟩], []⟩

/-- The gross-margin row used by the C3 witness. -/
def gmRowW : GMRow := ⟨24305, 120000, 48000, some (3/5)⟩

/-- The converted row used by the C7 witness. -/
def usdRowW : UsdRow := ⟨⟨24305, "EU", "Opex:IT", "EUR", 10000⟩, 6/5, 12000⟩

/-! ### Spec-side predicates for the load characterization -/

/-- Spec-side predicate (from the claim): all four required tables are
present. -/
def requiredTablesPresent (wb : Workbook) : Bool :=
  ["actuals", "budget", "cash", "fx"].all (fun n => (getSheet wb n).isSome)

/-- A named column is present whenever its table is (vacuously true for a
missing table, which `requiredTablesPresent` already rejects). -/
def colPresent (wb : Workbook) (table col : String) : Bool :=
  match getSheet wb table with
  | some sh => (colIdx sh col).isSome
  | none => true

/-- Spec-side predicate (from the claim): every column the load path
requires is present — `month` everywhere, `amount` in actuals/budget,
`currency` and `rate_to_usd` in fx. -/
def requiredColumnsPresent (wb : Workbook) : Bool :=
  colPresent wb "actuals" "month" && colPresent wb "budget" "month"
    && colPresent wb "cash" "month" && colPresent wb "fx" "month"
    && colPresent wb "actuals" "amount" && colPresent wb "budget" "amount"
    && colPresent wb "fx" "currency" && colPresent wb "fx" "rate_to_usd"

/-- Every month cell of the table parses as a date (vacuous when the table
or its month column is absent). -/
def sheetDatesOk (wb : Workbook) (table : String) : Bool :=
  match getSheet wb table with
  | some sh =>
    match colIdx sh "month" with
    | some i => sh.cells.all (fun row => (parseDateCell (getCell row i)).isSome)
    | none => true
  | none => true

/-- All four tables have parseable month cells. -/
def datesOk (wb : Workbook) : Bool :=
  sheetDatesOk wb "actuals" && sheetDatesOk wb "budget" && sheetDatesOk wb "cash"
    && sheetDatesOk wb "fx"

/-- The FX table's (month, currency) keys are duplicate-free after
first-of-month truncation (vacuous where the load fails earlier). -/
def fxKeysUnique (wb : Workbook) : Bool :=
  match getSheet wb "fx" with
  | some sh =>
    match colIdx sh "month", colIdx sh "currency", colIdx sh "rate_to_usd" with
    | some mi, some ci, some ri =>
      match parseDates "fx" sh mi with
      | Except.ok dF =>
        decide ((mkFxRows dF sh ci ri).map (fun r => (r.date, r.currency))).Nodup
      | Except.error _ => true
    | _, _, _ => true
  | none => true

/-- A workbook with all required tables and columns present and parseable
dates, whose fx sheet holds two rows for (2025-06, EUR) — "2025-06" and
"2025-06-15" truncate to the same month. -/
def wbDup : Workbook :=
  [("actuals", ⟨["month", "entity", "account_category", "currency", "amount"],
      [[Cell.str "2025-06", Cell.str "US", Cell.str "revenue", Cell.str "USD", Cell.num 100]]⟩),
   ("budget", ⟨["month", "account_category", "amount"], []⟩),
   ("cash", ⟨["month", "cash_usd"], []⟩),
   ("fx", ⟨["month", "currency", "rate_to_usd"],
      [[Cell.str "2025-06", Cell.str "EUR", Cell.num (11/10)],
       [Cell.str "2025-06-15", Cell.str "EUR", Cell.num (6/5)]]⟩)]

/-- Descending order on `amount_usd` is total. -/
instance : IsTotal OpexRow (fun a b => b.amount_usd ≤ a.amount_usd) :=
  ⟨fun a b => le_total b.amount_usd a.amount_usd⟩

/-- Descending order on `amount_usd` is transitive. -/
instance : IsTrans OpexRow (fun a b => b.amount_usd ≤ a.amount_usd) :=
  ⟨fun _ _ _ h1 h2 => le_trans h2 h1⟩

/-! ### Helper lemmas -/

/-- Splitting a sum over a list into the part satisfying a predicate and the
part refuting it. -/
theorem sum_filter_split {α : Type} (p : α → Bool) (val : α → ℚ) (l : List α) :
    ((l.filter p).map val).sum + ((l.filter (fun a => !(p a))).map val).sum
      = (l.map val).sum := by
  induction l with
  | nil => simp
  | cons a l ih =>
    cases h : p a
    · simp [List.filter_cons, h]
      rw [← ih]; ring
    · simp [List.filter_cons, h]
      rw [← ih]; ring

/-- Grouping a list by key and summing each group's values recovers the total
sum, provided the key list is duplicate-free and covers every element.  This
is the pandas `groupby(...)["amount_usd"].sum()` invariant. -/
theorem sum_over_groups {α : Type} (key : α → String) (val : α → ℚ) :
    ∀ (keys : List String) (l : List α), keys.Nodup →
      (∀ r ∈ l, key r ∈ keys) →
      (keys.map (fun c => ((l.filter (fun u => key u == c)).map val).sum)).sum
        = (l.map val).sum := by
  intro keys
  induction keys with
  | nil =>
    intro l _ hmem
    have hl : l = [] := List.eq_nil_iff_forall_not_mem.mpr
      (fun a ha => absurd (hmem a ha) (List.not_mem_nil _))
    simp [hl]
  | cons c ks ih =>
    intro l hnd hmem
    have hcks : c ∉ ks := (List.nodup_cons.mp hnd).1
    have hnd' : ks.Nodup := (List.nodup_cons.mp hnd).2
    have hcov : ∀ r ∈ l.filter (fun u => !(key u == c)), key r ∈ ks := by
      intro r hr
      rcases List.mem_filter.mp hr with ⟨hrl, hneq⟩
      rcases List.mem_cons.mp (hmem r hrl) with h | h
      · have hne : key r ≠ c := by simpa using hneq
        exact (hne h).elim
      · exact h
    have hrepl : ∀ c' ∈ ks,
        l.filter (fun u => key u == c')
          = (l.filter (fun u => !(key u == c))).filter (fun u => key u == c') := by
      intro c' hc'
      rw [List.filter_filter]
      apply List.filter_congr
      intro a _
      cases h : key a == c'
      · simp
      · have hac : key a = c' := by simpa using h
        have : ¬(key a == c) = true := by
          simp only [beq_iff_eq, hac]
          intro hcc
          exact hcks (hcc ▸ hc')
        simp [h, this]
    have hmaps : ks.map (fun c' => ((l.filter (fun u => key u == c')).map val).sum)
        = ks.map (fun c' =>
            (((l.filter (fun u => !(key u == c))).filter (fun u => key u == c')).map val).sum) :=
      List.map_congr_left (fun c' hc' => by rw [hrepl c' hc'])
    simp only [List.map_cons, List.sum_cons]
    rw [hmaps, ih (l.filter (fun u => !(key u == c))) hnd' hcov]
    exact sum_filter_split (fun u => key u == c) val l

/-- The total of `opex_breakdown`'s grouped output equals the total over the
filtered, converted rows: grouping and sorting preserve the sum. -/
theorem opex_breakdownTs_sum (fd : FinanceData) (ts : Month) (ent : Option String) :
    ((fd.opex_breakdownTs ts ent).map (·.amount_usd)).sum
      = ((fd.toUsd (entityFilter ent (opexFilter fd.actuals ts))).map (·.amount_usd)).sum := by
  unfold FinanceData.opex_breakdownTs
  set o_usd := fd.toUsd (entityFilter ent (opexFilter fd.actuals ts)) with ho
  set cats := List.insertionSort (· ≤ ·) ((o_usd.map (·.row.category)).dedup) with hcats
  set grouped := cats.map (fun c =>
    OpexRow.mk c (((o_usd.filter (fun u => u.row.category == c)).map (·.amount_usd)).sum))
    with hgrouped
  have hperm : (List.insertionSort (fun a b => b.amount_usd ≤ a.amount_usd) grouped).Perm
      grouped := List.perm_insertionSort _ _
  rw [(hperm.map (·.amount_usd)).sum_eq]
  have hmm : grouped.map (·.amount_usd)
      = cats.map (fun c => ((o_usd.filter (fun u => u.row.category == c)).map (·.amount_usd)).sum) := by
    rw [hgrouped, List.map_map]
    rfl
  rw [hmm]
  have hcperm : cats.Perm ((o_usd.map (·.row.category)).dedup) := List.perm_insertionSort _ _
  have hcnd : cats.Nodup := hcperm.nodup_iff.mpr (List.nodup_dedup _)
  have hccov : ∀ u ∈ o_usd, u.row.category ∈ cats := by
    intro u hu
    exact hcperm.mem_iff.mpr (List.mem_dedup.mpr (List.mem_map.mpr ⟨u, hu, rfl⟩))
  exact sum_over_groups (fun u => u.row.category) (fun u => u.amount_usd) cats o_usd hcnd hccov

/-! ### Claims -/

/-- C2: for every positive `n` and valid end month string `M` resolving to
timestamp `ts`, `gross_margin_trend(months := n, end_month := M)` returns
exactly `n` rows, one per consecutive calendar month oldest-to-newest (row
`i` carries month `ts - (n - 1 - i)`), the last row dated `ts` — months with
no matching data included, since the row count depends only on `n`. -/
theorem gross_margin_trend_shape (fd : FinanceData) (n : Nat) (M : String) (ts : Month)
    (hM : month_str_to_ts M = some ts) (hn : 0 < n) :
    fd.gross_margin_trend n (some M) = some (fd.gross_margin_trendTs n ts) ∧
    (fd.gross_margin_trendTs n ts).length = n ∧
    (∀ i, i < n → ((fd.gross_margin_trendTs n ts)[i]?).map (·.date)
        = some (ts - ((n - 1 - i : Nat) : Int))) ∧
    ((fd.gross_margin_trendTs n ts).getLast?).map (·.date) = some ts := by
  have hlen : (fd.gross_margin_trendTs n ts).length = n := by
    simp [FinanceData.gross_margin_trendTs, monthsRange]
  have hidx : ∀ i, i < n → ((fd.gross_margin_trendTs n ts)[i]?).map (·.date)
      = some (ts - ((n - 1 - i : Nat) : Int)) := by
    intro i hi
    simp [FinanceData.gross_margin_trendTs, monthsRange, List.getElem?_map,
      List.getElem?_range hi]
  refine ⟨by simp [FinanceData.gross_margin_trend, hM], hlen, hidx, ?_⟩
  rw [List.getLast?_eq_getElem?, hlen]
  have h := hidx (n - 1) (Nat.sub_lt hn Nat.one_pos)
  rwa [Nat.sub_self, Nat.cast_zero, sub_zero] at h

/-- C2 witness: the shape property at the sample dataset with
`n = 3`, `M = "2025-06"`. -/
theorem gross_margin_trend_shape_witness :
    month_str_to_ts "2025-06" = some 24305 ∧ 0 < 3 ∧
    (sampleData.gross_margin_trend 3 (some "2025-06")
        = some (sampleData.gross_margin_trendTs 3 24305) ∧
      (sampleData.gross_margin_trendTs 3 24305).length = 3 ∧
      (∀ i, i < 3 → ((sampleData.gross_margin_trendTs 3 24305)[i]?).map (·.date)
          = some ((24305 : Int) - ((3 - 1 - i : Nat) : Int))) ∧
      ((sampleData.gross_margin_trendTs 3 24305).getLast?).map (·.date) = some 24305) :=
  ⟨by decide, by decide,
    gross_margin_trend_shape sampleData 3 "2025-06" 24305 (by decide) (by decide)⟩

/-- C3: in every row of `gross_margin_trend`, `gross_margin_pct` is null
exactly when that month's summed USD revenue is 0, and otherwise equals
`(revenue_usd - cogs_usd) / revenue_usd` (negative margins included); the
zero-revenue case yields the null sentinel, never an error. -/
theorem gross_margin_pct_spec (fd : FinanceData) (n : Nat) (endTs : Month) (row : GMRow)
    (hrow : row ∈ fd.gross_margin_trendTs n endTs) :
    (row.gross_margin_pct = none ↔ row.revenue_usd = 0) ∧
    (row.revenue_usd ≠ 0 → row.gross_margin_pct
        = some ((row.revenue_usd - row.cogs_usd) / row.revenue_usd)) := by
  unfold FinanceData.gross_margin_trendTs at hrow
  rcases List.mem_map.mp hrow with ⟨ts, _, rfl⟩
  dsimp only
  constructor
  · constructor
    · intro hnone
      by_contra hne
      rw [if_neg hne] at hnone
      exact Option.some_ne_none _ hnone
    · intro h0
      rw [if_pos h0]
  · intro hne
    rw [if_neg hne]

/-- C3 witness: the June 2025 sample row (revenue 120000, cogs 48000,
margin 3/5). -/
theorem gross_margin_pct_spec_witness :
    gmRowW ∈ sampleData.gross_margin_trendTs 1 24305 ∧
    ((gmRowW.gross_margin_pct = none ↔ gmRowW.revenue_usd = 0) ∧
      (gmRowW.revenue_usd ≠ 0 → gmRowW.gross_margin_pct
          = some ((gmRowW.revenue_usd - gmRowW.cogs_usd) / gmRowW.revenue_usd))) :=
  have h : gmRowW ∈ sampleData.gross_margin_trendTs 1 24305 := by
    norm_num +decide [FinanceData.gross_margin_trendTs, monthsRange, revFilter, cogsFilter,
      FinanceData.toUsd, FinanceData.lookup_rate, FinanceData.fx_map, fxCurrencies,
      sortedFxDates, fxColumn, fxFilledColumn, fxRawCell, ffill, bfill, ffillAux, strLower,
      sampleData, sampleActuals, sampleFx, gmRowW, List.insertionSort, List.orderedInsert]
  ⟨h, gross_margin_pct_spec sampleData 1 24305 gmRowW h⟩

/-- C4: `opex_breakdown`'s rows are sorted in descending order of
`amount_usd`, and their `amount_usd` total equals the USD sum over all
actuals rows of that month whose lowercased category contains "opex" or
"operating" as a substring (with the optional entity filter applied). -/
theorem opex_breakdown_sorted_and_sum (fd : FinanceData) (ts : Month) (ent : Option String) :
    List.Sorted (fun a b : OpexRow => b.amount_usd ≤ a.amount_usd) (fd.opex_breakdownTs ts ent) ∧
    ((fd.opex_breakdownTs ts ent).map (·.amount_usd)).sum
      = ((fd.toUsd (entityFilter ent (opexFilter fd.actuals ts))).map (·.amount_usd)).sum := by
  refine ⟨?_, opex_breakdownTs_sum fd ts ent⟩
  unfold FinanceData.opex_breakdownTs
  exact List.sorted_insertionSort _ _

/-- C5: `ebitda_proxy`'s revenue component equals `revenue_vs_budget`'s
`actual_usd`, its opex component equals the total of `opex_breakdown`'s
rows, and `ebitda_usd` is exactly revenue − cogs − opex, all at the same
resolved month and entity. -/
theorem ebitda_proxy_components (fd : FinanceData) (ts : Month) (ent : Option String) :
    (fd.ebitda_proxyTs ts ent).revenue_usd = (fd.revenue_vs_budgetTs ts ent).actual_usd ∧
    (fd.ebitda_proxyTs ts ent).opex_usd
      = ((fd.opex_breakdownTs ts ent).map (·.amount_usd)).sum ∧
    (fd.ebitda_proxyTs ts ent).ebitda_usd
      = (fd.ebitda_proxyTs ts ent).revenue_usd - (fd.ebitda_proxyTs ts ent).cogs_usd
        - (fd.ebitda_proxyTs ts ent).opex_usd := by
  refine ⟨rfl, ?_, rfl⟩
  rw [opex_breakdownTs_sum fd ts ent]
  rfl

/-- C6: any two month strings resolving to the same first-of-month timestamp
give identical `revenue_vs_budget` and `ebitda_proxy` results, because both
consume the month only through `_month_str_to_ts`. -/
theorem month_string_resolution_invariance (fd : FinanceData) (m1 m2 : String)
    (ent : Option String) (ts : Month)
    (h1 : month_str_to_ts m1 = some ts) (h2 : month_str_to_ts m2 = some ts) :
    fd.revenue_vs_budget m1 ent = fd.revenue_vs_budget m2 ent ∧
    fd.ebitda_proxy m1 ent = fd.ebitda_proxy m2 ent := by
  unfold FinanceData.revenue_vs_budget FinanceData.ebitda_proxy
  rw [h1, h2]
  exact ⟨rfl, rfl⟩

/-- C6 witness: "June 2025", "Jun 2025", "2025-06" and "2025-06-15" all
resolve to month 24305 (2025-06), and the first and last give identical
results on the sample data. -/
theorem month_string_resolution_invariance_witness :
    month_str_to_ts "June 2025" = some 24305 ∧ month_str_to_ts "Jun 2025" = some 24305 ∧
    month_str_to_ts "2025-06" = some 24305 ∧ month_str_to_ts "2025-06-15" = some 24305 ∧
    (sampleData.revenue_vs_budget "June 2025" none
        = sampleData.revenue_vs_budget "2025-06-15" none ∧
      sampleData.ebitda_proxy "June 2025" none = sampleData.ebitda_proxy "2025-06-15" none) :=
  ⟨by decide, by decide, by decide, by decide,
    month_string_resolution_invariance sampleData "June 2025" "2025-06-15" none 24305
      (by decide) (by decide)⟩

/-- C7: every converted record carries `amount_usd = amount * usd_rate`, with
`usd_rate` equal to the filled FX-table entry when the (date, currency) key
is present and defaulting to 1 otherwise — silently, uniformly (USD rows
included), and with no rounding. -/
theorem to_usd_fx_default (fd : FinanceData) (rows : List Row) (u : UsdRow)
    (hu : u ∈ fd.toUsd rows) :
    u.amount_usd = u.row.amount * u.usd_rate ∧
    (∀ q, fd.fx_map u.row.date u.row.currency = some q → u.usd_rate = q) ∧
    (fd.fx_map u.row.date u.row.currency = none → u.usd_rate = 1) := by
  unfold FinanceData.toUsd at hu
  rcases List.mem_map.mp hu with ⟨r, _, rfl⟩
  refine ⟨rfl, ?_, ?_⟩
  · intro q hq
    simp [FinanceData.lookup_rate, hq]
  · intro hq
    simp [FinanceData.lookup_rate, hq]

/-- C7 witness: the sample EUR row is converted with the looked-up June rate
6/5, giving 12000 USD. -/
theorem to_usd_fx_default_witness :
    usdRowW ∈ sampleData.toUsd sampleActuals ∧
    (usdRowW.amount_usd = usdRowW.row.amount * usdRowW.usd_rate ∧
      (∀ q, sampleData.fx_map usdRowW.row.date usdRowW.row.currency = some q →
        usdRowW.usd_rate = q) ∧
      (sampleData.fx_map usdRowW.row.date usdRowW.row.currency = none →
        usdRowW.usd_rate = 1)) :=
  have h : usdRowW ∈ sampleData.toUsd sampleActuals := by
    norm_num +decide [FinanceData.toUsd, FinanceData.lookup_rate, FinanceData.fx_map,
      fxCurrencies, sortedFxDates, fxColumn, fxFilledColumn, fxRawCell, ffill, bfill, ffillAux,
      sampleData, sampleActuals, sampleFx, usdRowW, List.insertionSort, List.orderedInsert]
  ⟨h, to_usd_fx_default sampleData sampleActuals usdRowW h⟩

/-- C8: when no actuals (resp. budget) revenue rows match the resolved month
and entity, `revenue_vs_budget` reports 0 for that side instead of failing. -/
theorem revenue_vs_budget_empty_sides (fd : FinanceData) (ts : Month) (ent : Option String) :
    (entityFilter ent (revFilter fd.actuals ts) = [] →
      (fd.revenue_vs_budgetTs ts ent).actual_usd = 0) ∧
    (entityFilter ent (revFilter fd.budget ts) = [] →
      (fd.revenue_vs_budgetTs ts ent).budget_usd = 0) := by
  constructor <;> intro h <;>
    simp [FinanceData.revenue_vs_budgetTs, FinanceData.toUsd, h]

/-- C8 witness: month 24300 (2025-01) has no revenue rows on either side of
the sample data, and both sides report 0. -/
theorem revenue_vs_budget_empty_sides_witness :
    entityFilter none (revFilter sampleData.actuals 24300) = [] ∧
    entityFilter none (revFilter sampleData.budget 24300) = [] ∧
    (sampleData.revenue_vs_budgetTs 24300 none).actual_usd = 0 ∧
    (sampleData.revenue_vs_budgetTs 24300 none).budget_usd = 0 :=
  have h1 : entityFilter none (revFilter sampleData.actuals 24300) = [] := by decide
  have h2 : entityFilter none (revFilter sampleData.budget 24300) = [] := by decide
  ⟨h1, h2, (revenue_vs_budget_empty_sides sampleData 24300 none).1 h1,
    (revenue_vs_budget_empty_sides sampleData 24300 none).2 h2⟩

/-- C10: `classify` is a total function returning one of the six intents
(the five analytics plus "unknown") with a parameter record — in particular
it can never raise. -/
theorem classify_intent_range (q : String) :
    (classify q).1 ∈ ["revenue_vs_budget", "gross_margin_trend", "opex_breakdown",
      "cash_runway", "ebitda_proxy", "unknown"] := by
  unfold classify
  dsimp only
  split_ifs <;> simp

/-- Helper for C1: when the reindex step succeeds with window `filled`, the
returned record's fields satisfy the runway specification. -/
theorem cash_runway_fields (fd : FinanceData) (ts : Month) (ent : Option String)
    (filled : List (Option ℚ)) (hfill : fd.cashFilled ts ent = some filled) :
    ∃ r, fd.cash_runway_monthsTs ts ent = some r ∧
      r.as_of = ts ∧
      fd.avg_burn ts ent = some (meanOpt (netBurns filled)) ∧
      (∀ a, meanOpt (netBurns filled) = some a →
        r.avg_monthly_burn_usd = a ∧
        (a ≤ 0 → r.runway_months = none) ∧
        (0 < a → ∀ cc, r.current_cash_usd = some cc → r.runway_months = some (cc / a))) ∧
      (meanOpt (netBurns filled) = none →
        r.avg_monthly_burn_usd = 0 ∧ r.runway_months = none) := by
  have hts : fd.cash_runway_monthsTs ts ent = (fd.cashFilled ts ent).map (fun filled =>
      let avg := meanOpt (netBurns filled)
      let current := filled.getLast?.join
      { as_of := ts
        current_cash_usd := current
        avg_monthly_burn_usd := avg.getD 0
        runway_months :=
          match avg with
          | none => none
          | some a => if a ≤ 0 then none else some (current.getD 0 / a) }) := rfl
  rw [hfill] at hts
  have hab : fd.avg_burn ts ent = some (meanOpt (netBurns filled)) := by
    unfold FinanceData.avg_burn
    rw [hfill]
    rfl
  refine ⟨_, hts, rfl, hab, ?_, ?_⟩
  · intro a ha
    dsimp only
    rw [ha]
    refine ⟨rfl, ?_, ?_⟩
    · intro hle
      simp [if_pos hle]
    · intro hlt cc hcc
      show (if a ≤ 0 then none
        else some ((filled.getLast?.join).getD 0 / a)) = some (cc / a)
      rw [if_neg (not_le.mpr hlt), hcc]
      rfl
  · intro ha
    dsimp only
    rw [ha]
    exact ⟨rfl, rfl⟩

/-- C1 (amended): provided the entity-filtered cash table has at most one
row per calendar month — otherwise pandas `reindex` raises `ValueError` on
the duplicate date index and the call fails, see the counterexample —
`cash_runway_months` returns a record whose average burn is the mean of the
month-over-month declines across the forward/backward-filled 3-month window
ending at the resolved month, with `runway_months = current_cash / avg_burn`
when the average burn is strictly positive, the infinite sentinel when it is
zero or negative, and the infinite sentinel with a reported burn of 0.0 when
no burn figure is computable. -/
theorem cash_runway_months_spec (fd : FinanceData) (ts : Month) (ent : Option String)
    (hnd : ((fd.toUsdCash (cashEntityFilter ent fd.cash)).map (·.row.date)).Nodup) :
    ∃ filled r,
      fd.cashFilled ts ent = some filled ∧
      fd.cash_runway_monthsTs ts ent = some r ∧
      r.as_of = ts ∧
      fd.avg_burn ts ent = some (meanOpt (netBurns filled)) ∧
      (∀ a, meanOpt (netBurns filled) = some a →
        r.avg_monthly_burn_usd = a ∧
        (a ≤ 0 → r.runway_months = none) ∧
        (0 < a → ∀ cc, r.current_cash_usd = some cc → r.runway_months = some (cc / a))) ∧
      (meanOpt (netBurns filled) = none →
        r.avg_monthly_burn_usd = 0 ∧ r.runway_months = none) := by
  have hbal : fd.cashBalances ts ent
      = some ((monthsRange ts 3).map (fun m =>
          ((fd.toUsdCash (cashEntityFilter ent fd.cash)).find? (fun u => u.row.date == m)).map
            (fun u => u.row.cash_balance * u.usd_rate))) := by
    unfold FinanceData.cashBalances
    dsimp only
    rw [if_pos hnd]
  have hfill : fd.cashFilled ts ent
      = some (bfill (ffill ((monthsRange ts 3).map (fun m =>
          ((fd.toUsdCash (cashEntityFilter ent fd.cash)).find? (fun u => u.row.date == m)).map
            (fun u => u.row.cash_balance * u.usd_rate))))) := by
    unfold FinanceData.cashFilled
    rw [hbal]
    rfl
  obtain ⟨r, h1, h2, h3, h4, h5⟩ := cash_runway_fields fd ts ent _ hfill
  exact ⟨_, r, hfill, h1, h2, h3, h4, h5⟩

/-- C1 counterexample: on a loadable snapshot whose cash sheet holds two
entities for 2025-06, querying with no entity filter leaves a duplicate
date index, the reindex at tools.py line 160 raises, and
`cash_runway_months("2025-06")` returns no record at all — refuting the
original claim's "for every dataset snapshot". -/
theorem cash_runway_duplicate_counterexample :
    month_str_to_ts "2025-06" = some 24305 ∧
    dupCashData.cash_runway_monthsTs 24305 none = none ∧
    dupCashData.cash_runway_months (some "2025-06") none = none :=
  ⟨by decide, by decide, by decide⟩

/-- C1 witness: the sample cash series (500000, 450000, 420000 over
2025-04..2025-06) has unique dates; the theorem applies, and the runway
evaluates to 420000 / 40000 months. -/
theorem cash_runway_months_spec_witness :
    ((sampleData.toUsdCash (cashEntityFilter none sampleData.cash)).map (·.row.date)).Nodup ∧
    (∃ filled r,
      sampleData.cashFilled 24305 none = some filled ∧
      sampleData.cash_runway_monthsTs 24305 none = some r ∧
      r.as_of = 24305 ∧
      sampleData.avg_burn 24305 none = some (meanOpt (netBurns filled)) ∧
      (∀ a, meanOpt (netBurns filled) = some a →
        r.avg_monthly_burn_usd = a ∧
        (a ≤ 0 → r.runway_months = none) ∧
        (0 < a → ∀ cc, r.current_cash_usd = some cc → r.runway_months = some (cc / a))) ∧
      (meanOpt (netBurns filled) = none →
        r.avg_monthly_burn_usd = 0 ∧ r.runway_months = none)) ∧
    (sampleData.cash_runway_monthsTs 24305 none).map (fun r => r.runway_months)
      = some (some (420000 / 40000)) :=
  ⟨by decide, cash_runway_months_spec sampleData 24305 none (by decide),
    by norm_num +decide [FinanceData.cash_runway_monthsTs, FinanceData.cashFilled,
      FinanceData.cashBalances, FinanceData.toUsdCash, FinanceData.lookup_rate,
      FinanceData.fx_map, fxCurrencies, sortedFxDates, fxColumn, fxFilledColumn, fxRawCell,
      ffill, bfill, ffillAux, netBurns, meanOpt, monthsRange, cashEntityFilter, sampleData,
      sampleCash, sampleFx, List.insertionSort, List.orderedInsert, List.filterMap_cons,
      List.filterMap_nil]⟩

/-! ### C9: load-failure characterization -/

/-- Bind of a success, for `Except` chains. -/
theorem except_ok_bind {ε α β : Type} (a : α) (f : α → Except ε β) :
    (Except.ok a >>= f) = f a := rfl

/-- Bind of a failure, for `Except` chains. -/
theorem except_error_bind {ε α β : Type} (e : ε) (f : α → Except ε β) :
    ((Except.error e : Except ε α) >>= f) = Except.error e := rfl

/-- Lemma: `parseDates` succeeds exactly when every month cell parses. -/
theorem parseDates_isOk (t : String) (sh : Sheet) (i : Nat) :
    (parseDates t sh i).isOk
      = sh.cells.all (fun row => (parseDateCell (getCell row i)).isSome) := by
  unfold parseDates
  induction sh.cells with
  | nil => rfl
  | cons r rest ih =>
    rw [List.mapM_cons]
    cases hp : parseDateCell (getCell r i) with
    | none => simp [hp, except_error_bind, Except.isOk, Except.toBool]
    | some d =>
      rw [List.all_cons, hp]
      cases hm : rest.mapM (fun row =>
          match parseDateCell (getCell row i) with
          | some d => Except.ok d
          | none => Except.error (LoadError.badDateCell t)) with
      | error e =>
        rw [hm] at ih
        simp [hp, except_ok_bind, hm, except_error_bind, ← ih, Except.isOk, Except.toBool]
      | ok l =>
        rw [hm] at ih
        simp [hp, except_ok_bind, hm, ← ih, Except.isOk, Except.toBool]

set_option maxHeartbeats 2000000 in
/-- C9 (amended): loading fails whenever a required table or a required
column is missing, and numeric cells that fail to parse are coerced to 0
without ever failing the load; however these are not the only hard failures:
the load also aborts on unparseable date cells (`pd.to_datetime` at the
normalization step) and on duplicate (month, currency) FX keys (the pivot).
Precisely: the load succeeds exactly when the required tables and columns
are present, every month cell parses, and the FX keys are duplicate-free —
a condition that never depends on the contents of numeric cells. -/
theorem load_characterization (wb : Workbook) :
    (FinanceData.load wb).isOk
      = (requiredTablesPresent wb && requiredColumnsPresent wb && datesOk wb
          && fxKeysUnique wb) ∧
    (∀ s, toNumericCell (Cell.str s) = 0) ∧ toNumericCell Cell.empty = 0 := by
  refine ⟨?_, fun s => rfl, rfl⟩
  unfold FinanceData.load requiredTablesPresent requiredColumnsPresent datesOk
    fxKeysUnique colPresent sheetDatesOk requireSheet requireCol
  cases hA : getSheet wb "actuals" with
  | none => simp [*, except_error_bind, except_ok_bind, Except.isOk, Except.toBool]
  | some shA =>
  cases hmA : colIdx shA "month" with
  | none => simp [*, except_error_bind, except_ok_bind, Except.isOk, Except.toBool]
  | some mA =>
  cases hB : getSheet wb "budget" with
  | none => simp [*, except_error_bind, except_ok_bind, Except.isOk, Except.toBool]
  | some shB =>
  cases hmB : colIdx shB "month" with
  | none => simp [*, except_error_bind, except_ok_bind, Except.isOk, Except.toBool]
  | some mB =>
  cases hC : getSheet wb "cash" with
  | none => simp [*, except_error_bind, except_ok_bind, Except.isOk, Except.toBool]
  | some shC =>
  cases hmC : colIdx shC "month" with
  | none => simp [*, except_error_bind, except_ok_bind, Except.isOk, Except.toBool]
  | some mC =>
  cases hF : getSheet wb "fx" with
  | none => simp [*, except_error_bind, except_ok_bind, Except.isOk, Except.toBool]
  | some shF =>
  cases hmF : colIdx shF "month" with
  | none => simp [*, except_error_bind, except_ok_bind, Except.isOk, Except.toBool]
  | some mF =>
  cases hdA : parseDates "actuals" shA mA with
  | error e =>
    have hallA : shA.cells.all (fun row => (parseDateCell (getCell row mA)).isSome) = false := by
      rw [← parseDates_isOk "actuals" shA mA, hdA]; rfl
    simp [*, except_error_bind, except_ok_bind, Except.isOk, Except.toBool]
  | ok dA =>
  have hallA : shA.cells.all (fun row => (parseDateCell (getCell row mA)).isSome) = true := by
    rw [← parseDates_isOk "actuals" shA mA, hdA]; rfl
  cases hdB : parseDates "budget" shB mB with
  | error e =>
    have hallB : shB.cells.all (fun row => (parseDateCell (getCell row mB)).isSome) = false := by
      rw [← parseDates_isOk "budget" shB mB, hdB]; rfl
    simp [*, except_error_bind, except_ok_bind, Except.isOk, Except.toBool]
  | ok dB =>
  have hallB : shB.cells.all (fun row => (parseDateCell (getCell row mB)).isSome) = true := by
    rw [← parseDates_isOk "budget" shB mB, hdB]; rfl
  cases hdC : parseDates "cash" shC mC with
  | error e =>
    have hallC : shC.cells.all (fun row => (parseDateCell (getCell row mC)).isSome) = false := by
      rw [← parseDates_isOk "cash" shC mC, hdC]; rfl
    simp [*, except_error_bind, except_ok_bind, Except.isOk, Except.toBool]
  | ok dC =>
  have hallC : shC.cells.all (fun row => (parseDateCell (getCell row mC)).isSome) = true := by
    rw [← parseDates_isOk "cash" shC mC, hdC]; rfl
  cases hdF : parseDates "fx" shF mF with
  | error e =>
    have hallF : shF.cells.all (fun row => (parseDateCell (getCell row mF)).isSome) = false := by
      rw [← parseDates_isOk "fx" shF mF, hdF]; rfl
    simp [*, except_error_bind, except_ok_bind, Except.isOk, Except.toBool]
  | ok dF =>
  have hallF : shF.cells.all (fun row => (parseDateCell (getCell row mF)).isSome) = true := by
    rw [← parseDates_isOk "fx" shF mF, hdF]; rfl
  cases haA : colIdx shA "amount" with
  | none => simp [*, except_error_bind, except_ok_bind, Except.isOk, Except.toBool]
  | some aA =>
  cases haB : colIdx shB "amount" with
  | none => simp [*, except_error_bind, except_ok_bind, Except.isOk, Except.toBool]
  | some aB =>
  cases hcF : colIdx shF "currency" with
  | none => simp [*, except_error_bind, except_ok_bind, Except.isOk, Except.toBool]
  | some cF =>
  cases hrF : colIdx shF "rate_to_usd" with
  | none => simp [*, except_error_bind, except_ok_bind, Except.isOk, Except.toBool]
  | some rF =>
  by_cases hdup : ((mkFxRows dF shF cF rF).map (fun r => (r.date, r.currency))).Nodup
  · simp only [hA, hmA, hB, hmB, hC, hmC, hF, hmF, hdA, hdB, hdC, hdF, haA, haB, hcF, hrF,
      except_ok_bind, hallA, hallB, hallC, hallF, if_pos hdup, Except.isOk, Except.toBool]
    simp [hA, hB, hC, hF]
    exact hdup
  · simp only [hA, hmA, hB, hmB, hC, hmC, hF, hmF, hdA, hdB, hdC, hdF, haA, haB, hcF, hrF,
      except_ok_bind, hallA, hallB, hallC, hallF, if_neg hdup, Except.isOk, Except.toBool]
    simp [hA, hB, hC, hF, decide_eq_false hdup]

/-- C9 counterexample: `wbDup` is missing no required table or column (and
all its dates parse), yet the load fails — `DataFrame.pivot` raises on the
duplicated (month, currency) key — so a missing table or column is not the
only hard failure in the load path, contradicting the claim's "exactly
when". -/
theorem load_failure_counterexample :
    requiredTablesPresent wbDup = true ∧ requiredColumnsPresent wbDup = true ∧
    datesOk wbDup = true ∧
    FinanceData.load wbDup = Except.error LoadError.duplicateFxKey :=
  ⟨by decide, by decide, by decide, by rfl⟩
